import Mathlib

set_option maxRecDepth 8192

/-!
A shallow embedding of the rbay torrent-API client library (sources
`src/deser.rs`, `src/types.rs`, `src/lib.rs`), together with proofs about
its lenient JSON-normalisation layer, its category table lookup and its
magnet-link construction.

JSON values are modelled by an inductive type mirroring serde_json's
`Value`, restricted to integer-valued numbers: serde_json stores an
integer literal as a `u64` when it lies in `[0, 2^64)`, as an `i64` when
it lies in `[-2^63, 0)`, and as a float otherwise; the accessors
`Json.as_u64` / `Json.as_i64` below reproduce the composite behaviour of
that storage decision followed by serde_json's `as_u64` / `as_i64`
(both of which return `None` on floats).
-/

inductive Json where
  | null
  | bool (b : Bool)
  | num (i : Int)
  | str (s : String)
  | arr (elems : List Json)
  | obj (fields : List (String × Json))

/-- serde_json `Value::as_u64`: `Some` exactly for integers in `[0, 2^64)`. -/
def Json.as_u64 : Json → Option Nat
  | .num i => if 0 ≤ i ∧ i < 18446744073709551616 then some i.toNat else none
  | _ => none

/-- serde_json `Value::as_i64`: `Some` exactly for integers in `[-2^63, 2^63)`. -/
def Json.as_i64 : Json → Option Int
  | .num i => if -9223372036854775808 ≤ i ∧ i < 9223372036854775808 then some i else none
  | _ => none

/-- serde_json `Value::as_str`: `Some` exactly for strings. -/
def Json.as_str : Json → Option String
  | .str s => some s
  | _ => none

/-- Whether a JSON value is an array. -/
def Json.isArr : Json → Bool
  | .arr _ => true
  | _ => false

/-- Value of one ASCII decimal digit, `none` for any other character. -/
def digitVal? (c : Char) : Option Nat :=
  if '0' ≤ c ∧ c ≤ '9' then some (c.toNat - '0'.toNat) else none

/-- Accumulate a decimal numeral left to right; `none` on any non-digit. -/
def digitsValAux : List Char → Nat → Option Nat
  | [], acc => some acc
  | c :: cs, acc =>
    match digitVal? c with
    | some d => digitsValAux cs (acc * 10 + d)
    | none => none

/-- Value of a non-empty all-digit character list, `none` otherwise. -/
def digitsVal? : List Char → Option Nat
  | [] => none
  | cs => digitsValAux cs 0

/-- Strip one leading ASCII plus sign, as Rust's unsigned `FromStr` does. -/
def stripPlus : List Char → List Char
  | c :: rest => if c = '+' then rest else c :: rest
  | [] => []

/-- The natural number a string denotes in Rust's unsigned-decimal grammar
(an optional leading `+`, then one or more ASCII digits), with no range
restriction.  This is the specification-side notion of "numeric string
representing a value". -/
def denotesNat? (s : String) : Option Nat := digitsVal? (stripPlus s.data)

/-- Rust `u64::from_str`.  Rust aborts on the first overflowing
accumulation step; since the result is `Err` in exactly the cases where
the exact value is `≥ 2^64`, this is modelled as computing the exact
value and range-checking at the end. -/
def rustParseU64 (s : String) : Option Nat :=
  (denotesNat? s).bind (fun n => if n < 18446744073709551616 then some n else none)

/-- The integer a string denotes in Rust's signed-decimal grammar (an
optional leading `+` or `-`, then one or more ASCII digits), with no
range restriction. -/
def denotesInt? (s : String) : Option Int :=
  match s.data with
  | [] => none
  | c :: rest =>
    if c = '-' then (digitsVal? rest).map (fun n => -(n : Int))
    else if c = '+' then (digitsVal? rest).map (fun n => (n : Int))
    else (digitsVal? (c :: rest)).map (fun n => (n : Int))

/-- Rust `i64::from_str`, modelled like `rustParseU64` (exact value with a
final range check, which agrees with Rust's per-step overflow abort). -/
def rustParseI64 (s : String) : Option Int :=
  (denotesInt? s).bind
    (fun i => if -9223372036854775808 ≤ i ∧ i < 9223372036854775808 then some i else none)

/-- `deser.rs` `u64_from_str`: deserialise a string or integer into a `u64`. -/
def u64_from_str (v : Json) : Except String Nat :=
  match v.as_u64.orElse (fun _ => v.as_str.bind (fun s => rustParseU64 s)) with
  | some n => Except.ok n
  | none => Except.error "expected a u64 or a string"

/-- `deser.rs` `u16_from_str`: deserialise a string or integer into a `u16`
(`u16::try_from` succeeds exactly on values below `2^16`). -/
def u16_from_str (v : Json) : Except String Nat :=
  match v.as_u64.orElse (fun _ => v.as_str.bind (fun s => rustParseU64 s)) with
  | some n => if n < 65536 then Except.ok n else Except.error "expected a u16"
  | none => Except.error "expected a u64 or a string"

/-- A chrono `DateTime<Utc>` with whole-second timestamp and a sub-second
nanosecond component (`DateTime::from_naive_utc_and_offset` with the `Utc`
offset is the identity on this representation). -/
structure DateTimeUtc where
  secs : Int
  nsecs : Nat
  deriving DecidableEq

/-- Smallest epoch-second value representable by chrono's `NaiveDateTime`. -/
def chronoMinSecs : Int := -8334601228800

/-- Largest epoch-second value representable by chrono's `NaiveDateTime`. -/
def chronoMaxSecs : Int := 8210266876799

/-- chrono `NaiveDateTime::from_timestamp_opt`: `None` when the seconds fall
outside chrono's representable date range or the nanoseconds reach the
leap-second cap of two billion. -/
def from_timestamp_opt (secs : Int) (nsecs : Nat) : Option DateTimeUtc :=
  if chronoMinSecs ≤ secs ∧ secs ≤ chronoMaxSecs ∧ nsecs < 2000000000 then
    some { secs := secs, nsecs := nsecs }
  else none

/-- `deser.rs` `parse_timestamp`: deserialise a string or integer number of
seconds since the Unix epoch into a UTC datetime. -/
def parse_timestamp (v : Json) : Except String DateTimeUtc :=
  match (v.as_i64.orElse (fun _ => v.as_str.bind (fun s => rustParseI64 s))).bind
      (fun secs => from_timestamp_opt secs 0) with
  | some dt => Except.ok dt
  | none => Except.error "expected a timestamp in seconds"

/-- `deser.rs` `empty_as_none`: deserialise a string as `some` and an empty
string or null as `none`. -/
def empty_as_none (v : Json) : Except String (Option String) :=
  match v with
  | .null => Except.ok none
  | .str s => Except.ok (if s.isEmpty then none else some s)
  | _ => Except.error "invalid type: expected a string or null"

/-- serde's `String` deserialiser on a self-describing value: succeeds
exactly on JSON strings (the error text abbreviates serde's message). -/
def decodeString (v : Json) : Except String String :=
  match v with
  | .str s => Except.ok s
  | _ => Except.error "invalid type: expected a string"

/-- `deser.rs` `unit_array`: deserialise a single-element array into the
element, with the given element deserialiser standing for the target
type's `Deserialize` instance. -/
def unit_array {T : Type} (decode : Json → Except String T) (v : Json) : Except String T :=
  match v with
  | .arr elems =>
    match elems with
    | [x] =>
      match decode x with
      | .ok t => Except.ok t
      | .error e => Except.error ("failed to deserialize: " ++ e)
    | _ => Except.error "expected an array of length 1"
  | _ => Except.error "expected an array"

/-- Whether an `Except` result is a success. -/
def exceptIsOk {α : Type} : Except String α → Bool
  | .ok _ => true
  | .error _ => false

/-- `types.rs` `UserStatus`: the trust status of an uploader. -/
inductive UserStatus where
  | Member
  | Trusted
  | Helper
  | Vip
  | Moderator
  | SuperMod
  | Admin
  deriving DecidableEq

/-- The string tag accepted for each `UserStatus` variant.  serde's
`rename_all = "lowercase"` renames each variant to its lowercased name and
matches it exactly; any other string is an unknown variant. -/
def UserStatus.fromTag (s : String) : Option UserStatus :=
  if s = "member" then some .Member
  else if s = "trusted" then some .Trusted
  else if s = "helper" then some .Helper
  else if s = "vip" then some .Vip
  else if s = "moderator" then some .Moderator
  else if s = "supermod" then some .SuperMod
  else if s = "admin" then some .Admin
  else none

/-- serde's derived deserialiser for `UserStatus`: a unit variant of an
externally tagged enum is decoded from a JSON string (the error texts
abbreviate serde's messages). -/
def UserStatus.deserialize (v : Json) : Except String UserStatus :=
  match v with
  | .str s =>
    match UserStatus.fromTag s with
    | some u => Except.ok u
    | none => Except.error ("unknown variant: " ++ s)
  | _ => Except.error "invalid type: expected a string"

/-- Modelled from the spec: the static `CATEGORIES` table of
`(code, name)` pairs lives in the missing `scraped` module
(`src/scraped.rs` is not among the provided sources).  The spec fixes:
tens of entries; hierarchical hundreds-digit grouping of the numeric
codes (parents such as 200, children such as 201); the pair
`(201, "Video: Movies")` (also asserted by the doc example in
`src/lib.rs`); an entry for code 200; and no entry for code 207 (the
spec's fallback example presumes 207 absent). -/
def CATEGORIES : List (Nat × String) :=
  [(100, "Audio"),
   (101, "Audio: Music"),
   (102, "Audio: Audio books"),
   (103, "Audio: Sound clips"),
   (104, "Audio: FLAC"),
   (199, "Audio: Other"),
   (200, "Video"),
   (201, "Video: Movies"),
   (202, "Video: Movies DVDR"),
   (203, "Video: Music videos"),
   (204, "Video: Movie clips"),
   (205, "Video: TV shows"),
   (206, "Video: Handheld"),
   (208, "Video: HD - TV shows"),
   (209, "Video: 3D"),
   (299, "Video: Other"),
   (300, "Applications"),
   (301, "Applications: Windows"),
   (302, "Applications: Mac"),
   (303, "Applications: UNIX"),
   (399, "Applications: Other"),
   (400, "Games"),
   (401, "Games: PC"),
   (402, "Games: Mac"),
   (499, "Games: Other"),
   (600, "Other"),
   (601, "Other: E-books"),
   (699, "Other: Other")]

/-- Modelled from the spec: the `TRACKERS` constant lives in the missing
`scraped` module (`src/scraped.rs` is not among the provided sources);
the spec describes it as "a fixed list of known tracker URLs" appended as
repeated `tr` query parameters.  The concrete entries are representative;
the claims proved below depend only on the list being fixed. -/
def TRACKERS : List String :=
  ["udp://tracker.opentrackr.org:1337/announce",
   "udp://open.stealth.si:80/announce",
   "udp://tracker.torrent.eu.org:451/announce"]

/-- `types.rs` `Category`: a media category code (a `u16` in the source;
the u16 range is enforced by its deserialiser, `u16_from_str`). -/
structure Category where
  code : Nat
  deriving DecidableEq

/-- `lib.rs` `Category::new`: a category handle, or `none` when the code
is not present in the static table. -/
def Category.new (id : Nat) : Option Category :=
  if CATEGORIES.any (fun p => p.1 == id) then some { code := id } else none

/-- `lib.rs` `Category::all`: every category of the static table, in table
order (the Rust iterator is restartable and pure; a list captures it). -/
def Category.all : List Category :=
  CATEGORIES.map (fun p => { code := p.1 })

/-- `lib.rs` `Category::name`'s inner `lookup_id`: linear scan of the
static table for an exact code match. -/
def lookup_id (id : Nat) : Option String :=
  (CATEGORIES.find? (fun p => p.1 == id)).map (fun p => p.2)

/-- `lib.rs` `Category::name`: exact lookup, else lookup of the code
divided by 100, else `"Unknown"`. -/
def Category.name (c : Category) : String :=
  ((lookup_id c.code).orElse (fun _ => lookup_id (c.code / 100))).getD "Unknown"

/-- serde's deserialiser for `Category`: `#[serde(transparent)]` over a
single field decoded with `u16_from_str`, with no table-membership check. -/
def Category.deserialize (v : Json) : Except String Category :=
  (u16_from_str v).map (fun n => { code := n })

/-- `types.rs` `PartialTorrent`: a torrent with only the details returned
by listing endpoints. -/
structure PartialTorrent where
  id : Nat
  name : String
  info_hash : String
  leechers : Nat
  seeders : Nat
  num_files : Nat
  size : Nat
  username : String
  added : DateTimeUtc
  status : UserStatus
  category : Category
  imdb : Option String

/-- Bytes that the url crate's form-urlencoded serialiser passes through
unchanged: ASCII alphanumerics and `*`, `-`, `.`, `_`. -/
def isFormUnreserved (c : Char) : Bool :=
  c.isAlphanum || c == '*' || c == '-' || c == '.' || c == '_'

/-- Uppercase hexadecimal digit for a value below 16. -/
def hexDigitChar (n : Nat) : Char :=
  if n < 10 then Char.ofNat (48 + n) else Char.ofNat (55 + n)

/-- The UTF-8 encoding of one character, as byte values. -/
def utf8Bytes (c : Char) : List Nat :=
  let n := c.toNat
  if n < 128 then [n]
  else if n < 2048 then [192 + n / 64, 128 + n % 64]
  else if n < 65536 then [224 + n / 4096, 128 + n / 64 % 64, 128 + n % 64]
  else [240 + n / 262144, 128 + n / 4096 % 64, 128 + n / 64 % 64, 128 + n % 64]

/-- Percent-encoding of one byte, `%XX` with uppercase hex. -/
def percentEncodeByte (b : Nat) : List Char :=
  ['%', hexDigitChar (b / 16), hexDigitChar (b % 16)]

/-- The url crate's form-urlencoded serialisation of one character: space
becomes `+`, unreserved bytes pass through, anything else is
percent-encoded byte by byte. -/
def formUrlencodeChar (c : Char) : List Char :=
  if c == ' ' then ['+']
  else if isFormUnreserved c then [c]
  else ((utf8Bytes c).map percentEncodeByte).flatten

/-- The url crate's form-urlencoded serialisation of a string. -/
def formUrlencode (s : String) : String :=
  String.mk ((s.data.map formUrlencodeChar).flatten)

/-- `lib.rs` `PartialTorrent::magnet`: the magnet URI built from the fixed
`magnet:?xt=urn:btih:` prefix, the info hash embedded verbatim, and
form-urlencoded `dn` and repeated `tr` query pairs.  The source builds
this by parsing `"magnet:?xt=urn:btih:" ++ hash` as a `Url` and then
appending pairs with `query_pairs_mut`; for an info hash made of
characters the url crate keeps verbatim in a query (such as the
alphanumeric hashes the claims concern), the parse round-trip is the
identity and each appended pair contributes `&key=value` with the value
form-urlencoded, which is what is written out here. -/
def PartialTorrent.magnet (t : PartialTorrent) : String :=
  "magnet:?xt=urn:btih:" ++ t.info_hash
    ++ "&dn=" ++ formUrlencode t.name
    ++ (TRACKERS.map (fun tr => "&tr=" ++ formUrlencode tr)).foldl (· ++ ·) ""

/-- Whether `pat` is a prefix of `l`, by character comparison. -/
def listStartsWith : List Char → List Char → Bool
  | [], _ => true
  | _ :: _, [] => false
  | p :: ps, c :: cs => p == c && listStartsWith ps cs

/-- Number of positions of `l` where `pat` occurs as a contiguous
substring. -/
def countOcc (pat : List Char) : List Char → Nat
  | [] => 0
  | c :: cs => (if listStartsWith pat (c :: cs) then 1 else 0) + countOcc pat cs

theorem opt_orElse_some {α : Type} (a : α) (f : Unit → Option α) :
    (some a).orElse f = some a := rfl

theorem opt_orElse_none {α : Type} (f : Unit → Option α) :
    (none : Option α).orElse f = f () := rfl

/-- In a list of pairs whose keys are distinct, `find?` on a key equality
test returns exactly the pair carrying that key. -/
theorem find?_key_eq {l : List (Nat × String)} {c : Nat} {n : String}
    (hnd : (l.map Prod.fst).Nodup) (h : (c, n) ∈ l) :
    l.find? (fun p => p.1 == c) = some (c, n) := by
  induction l with
  | nil => cases h
  | cons hd tl ih =>
    rw [List.map_cons, List.nodup_cons] at hnd
    rcases List.mem_cons.mp h with heq | htl
    · subst heq
      exact List.find?_cons_of_pos _ (by simp)
    · have hne : hd.1 ≠ c := by
        intro hc
        exact hnd.1 (hc ▸ List.mem_map_of_mem Prod.fst htl)
      rw [List.find?_cons_of_neg _ (by simp [hne])]
      exact ih hnd.2 htl

theorem categories_keys_nodup : (CATEGORIES.map Prod.fst).Nodup := by decide

theorem lookup_id_eq_of_mem {c : Nat} {n : String} (h : (c, n) ∈ CATEGORIES) :
    lookup_id c = some n := by
  rw [lookup_id, find?_key_eq categories_keys_nodup h]
  rfl

theorem as_u64_num_pos {i : Int} (h0 : 0 ≤ i) (h1 : i < 18446744073709551616) :
    Json.as_u64 (Json.num i) = some i.toNat := by
  simp [Json.as_u64, h0, h1]

theorem as_u64_num_neg {i : Int} (h : i < 0 ∨ 18446744073709551616 ≤ i) :
    Json.as_u64 (Json.num i) = none := by
  simp only [Json.as_u64, ite_eq_right_iff]
  intro hc
  omega

theorem u64_from_str_num_ok {i : Int} (h0 : 0 ≤ i) (h1 : i < 18446744073709551616) :
    u64_from_str (Json.num i) = Except.ok i.toNat := by
  rw [u64_from_str, as_u64_num_pos h0 h1, opt_orElse_some]

theorem u64_from_str_num_err {i : Int} (h : i < 0 ∨ 18446744073709551616 ≤ i) :
    u64_from_str (Json.num i) = Except.error "expected a u64 or a string" := by
  rw [u64_from_str, as_u64_num_neg h, opt_orElse_none]
  rfl

theorem u64_from_str_str_eq (s : String) :
    u64_from_str (Json.str s) =
      match rustParseU64 s with
      | some n => Except.ok n
      | none => Except.error "expected a u64 or a string" := by
  rw [u64_from_str]
  rfl

theorem rustParseU64_of_denotes {s : String} {n : Nat} (h : denotesNat? s = some n)
    (h1 : n < 18446744073709551616) : rustParseU64 s = some n := by
  rw [rustParseU64, h]
  simp [h1]

theorem rustParseU64_of_denotes_big {s : String} {n : Nat} (h : denotesNat? s = some n)
    (h1 : 18446744073709551616 ≤ n) : rustParseU64 s = none := by
  rw [rustParseU64, h]
  simp
  omega

theorem rustParseU64_of_not_denotes {s : String} (h : denotesNat? s = none) :
    rustParseU64 s = none := by
  rw [rustParseU64, h]
  rfl

theorem u16_from_str_num_ok {i : Int} (h0 : 0 ≤ i) (h1 : i < 65536) :
    u16_from_str (Json.num i) = Except.ok i.toNat := by
  rw [u16_from_str, as_u64_num_pos h0 (by omega), opt_orElse_some]
  simp only [if_pos (by omega : i.toNat < 65536)]

theorem u16_from_str_str_eq (s : String) :
    u16_from_str (Json.str s) =
      match rustParseU64 s with
      | some n => if n < 65536 then Except.ok n else Except.error "expected a u16"
      | none => Except.error "expected a u64 or a string" := by
  rw [u16_from_str]
  rfl

theorem u16_from_str_str_ok {s : String} {n : Nat} (h : denotesNat? s = some n)
    (h1 : n < 65536) : u16_from_str (Json.str s) = Except.ok n := by
  rw [u16_from_str_str_eq, rustParseU64_of_denotes h (by omega)]
  simp [h1]

theorem u16_from_str_num_big {i : Int} (h : 65536 ≤ i) :
    exceptIsOk (u16_from_str (Json.num i)) = false := by
  by_cases h1 : i < 18446744073709551616
  · rw [u16_from_str, as_u64_num_pos (by omega) h1, opt_orElse_some]
    have : ¬ i.toNat < 65536 := by omega
    simp [this, exceptIsOk]
  · rw [u16_from_str, as_u64_num_neg (Or.inr (by omega)), opt_orElse_none]
    rfl

theorem u16_from_str_str_big {s : String} {n : Nat} (h : denotesNat? s = some n)
    (h1 : 65536 ≤ n) : exceptIsOk (u16_from_str (Json.str s)) = false := by
  rw [u16_from_str_str_eq]
  by_cases h2 : n < 18446744073709551616
  · rw [rustParseU64_of_denotes h h2]
    have : ¬ n < 65536 := by omega
    simp [this, exceptIsOk]
  · rw [rustParseU64_of_denotes_big h (by omega)]
    rfl

theorem as_i64_num_in {i : Int} (h0 : -9223372036854775808 ≤ i)
    (h1 : i < 9223372036854775808) : Json.as_i64 (Json.num i) = some i := by
  simp [Json.as_i64, h0, h1]

theorem parse_timestamp_num_ok {i : Int} (h0 : chronoMinSecs ≤ i) (h1 : i ≤ chronoMaxSecs) :
    parse_timestamp (Json.num i) = Except.ok { secs := i, nsecs := 0 } := by
  have hr : -9223372036854775808 ≤ i ∧ i < 9223372036854775808 := by
    rw [chronoMinSecs] at h0
    rw [chronoMaxSecs] at h1
    omega
  rw [parse_timestamp, as_i64_num_in hr.1 hr.2, opt_orElse_some, Option.some_bind,
    from_timestamp_opt, if_pos ⟨h0, h1, by norm_num⟩]

theorem rustParseI64_of_not_denotes {s : String} (h : denotesInt? s = none) :
    rustParseI64 s = none := by
  rw [rustParseI64, h]
  rfl

theorem parse_timestamp_str_not_num {s : String} (h : denotesInt? s = none) :
    parse_timestamp (Json.str s) = Except.error "expected a timestamp in seconds" := by
  rw [parse_timestamp, show Json.as_i64 (Json.str s) = none from rfl, opt_orElse_none,
    show Json.as_str (Json.str s) = some s from rfl, Option.some_bind,
    rustParseI64_of_not_denotes h, Option.none_bind]

/-- C3: for every JSON value that is an (integer) number or a numeric
string representing a value in `[0, 2^64)`, `u64_from_str` returns
exactly that value; for every JSON value representing a number outside
that range, and for every non-numeric string, it returns a decode
error. -/
theorem c3_u64_flexible :
    (∀ i : Int, 0 ≤ i → i < 18446744073709551616 →
      u64_from_str (Json.num i) = Except.ok i.toNat) ∧
    (∀ i : Int, i < 0 ∨ 18446744073709551616 ≤ i →
      u64_from_str (Json.num i) = Except.error "expected a u64 or a string") ∧
    (∀ s n, denotesNat? s = some n → n < 18446744073709551616 →
      u64_from_str (Json.str s) = Except.ok n) ∧
    (∀ s n, denotesNat? s = some n → 18446744073709551616 ≤ n →
      u64_from_str (Json.str s) = Except.error "expected a u64 or a string") ∧
    (∀ s, denotesNat? s = none →
      u64_from_str (Json.str s) = Except.error "expected a u64 or a string") := by
  refine ⟨fun i h0 h1 => u64_from_str_num_ok h0 h1,
    fun i h => u64_from_str_num_err h, ?_, ?_, ?_⟩
  · intro s n h h1
    rw [u64_from_str_str_eq, rustParseU64_of_denotes h h1]
  · intro s n h h1
    rw [u64_from_str_str_eq, rustParseU64_of_denotes_big h h1]
  · intro s h
    rw [u64_from_str_str_eq, rustParseU64_of_not_denotes h]

/-- C3 witness: the five clauses at concrete inputs. -/
theorem c3_u64_flexible_witness :
    u64_from_str (Json.num 7) = Except.ok 7 ∧
    u64_from_str (Json.num (-3)) = Except.error "expected a u64 or a string" ∧
    u64_from_str (Json.str "42") = Except.ok 42 ∧
    u64_from_str (Json.str "18446744073709551616") =
      Except.error "expected a u64 or a string" ∧
    u64_from_str (Json.str "abc") = Except.error "expected a u64 or a string" :=
  ⟨c3_u64_flexible.1 7 (by decide) (by decide),
   c3_u64_flexible.2.1 (-3) (Or.inl (by decide)),
   c3_u64_flexible.2.2.1 "42" 42 (by decide) (by decide),
   c3_u64_flexible.2.2.2.1 "18446744073709551616" 18446744073709551616 (by decide) (by decide),
   c3_u64_flexible.2.2.2.2 "abc" (by decide)⟩

/-- C8: for every JSON (integer) number or numeric string representing a
value in `[0, 65536)`, `u16_from_str` succeeds with that value; for every
value at or above 65536 it fails, even when the value is a valid u64. -/
theorem c8_u16_flexible :
    (∀ i : Int, 0 ≤ i → i < 65536 → u16_from_str (Json.num i) = Except.ok i.toNat) ∧
    (∀ s n, denotesNat? s = some n → n < 65536 →
      u16_from_str (Json.str s) = Except.ok n) ∧
    (∀ i : Int, 65536 ≤ i → exceptIsOk (u16_from_str (Json.num i)) = false) ∧
    (∀ s n, denotesNat? s = some n → 65536 ≤ n →
      exceptIsOk (u16_from_str (Json.str s)) = false) :=
  ⟨fun _ h0 h1 => u16_from_str_num_ok h0 h1,
   fun _ _ h h1 => u16_from_str_str_ok h h1,
   fun _ h => u16_from_str_num_big h,
   fun _ _ h h1 => u16_from_str_str_big h h1⟩

/-- C8 witness: the four clauses at concrete inputs, including an
in-u64-range value of 70000 that is rejected. -/
theorem c8_u16_flexible_witness :
    u16_from_str (Json.num 207) = Except.ok 207 ∧
    u16_from_str (Json.str "65535") = Except.ok 65535 ∧
    exceptIsOk (u16_from_str (Json.num 70000)) = false ∧
    exceptIsOk (u16_from_str (Json.str "70000")) = false :=
  ⟨c8_u16_flexible.1 207 (by decide) (by decide),
   c8_u16_flexible.2.1 "65535" 65535 (by decide) (by decide),
   c8_u16_flexible.2.2.1 70000 (by decide),
   c8_u16_flexible.2.2.2 "70000" 70000 (by decide) (by decide)⟩

/-- C9: `Category` deserialisation from a JSON (integer) number or numeric
string in u16 range always succeeds with that code and performs no
membership check against the `CATEGORIES` table — in particular it
succeeds for code 999, for which `Category.new` returns `none`. -/
theorem c9_category_decode_unchecked :
    (∀ i : Int, 0 ≤ i → i < 65536 →
      Category.deserialize (Json.num i) = Except.ok { code := i.toNat }) ∧
    (∀ s n, denotesNat? s = some n → n < 65536 →
      Category.deserialize (Json.str s) = Except.ok { code := n }) ∧
    Category.new 999 = none ∧
    Category.deserialize (Json.num 999) = Except.ok { code := 999 } := by
  refine ⟨?_, ?_, by decide, rfl⟩
  · intro i h0 h1
    rw [Category.deserialize, u16_from_str_num_ok h0 h1]
    rfl
  · intro s n h h1
    rw [Category.deserialize, u16_from_str_str_ok h h1]
    rfl

/-- C9 witness: the quantified clauses at concrete inputs. -/
theorem c9_category_decode_unchecked_witness :
    Category.deserialize (Json.num 501) = Except.ok { code := 501 } ∧
    Category.deserialize (Json.str "999") = Except.ok { code := 999 } :=
  ⟨c9_category_decode_unchecked.1 501 (by decide) (by decide),
   c9_category_decode_unchecked.2.1 "999" 999 (by decide) (by decide)⟩

/-- C5: `parse_timestamp` decodes the JSON string `"1700000000"` and the
JSON number `1700000000` to the identical UTC instant, which has a zero
sub-second component; decoding any non-numeric string fails with a decode
error. -/
theorem c5_timestamp_equiv :
    parse_timestamp (Json.str "1700000000") = Except.ok { secs := 1700000000, nsecs := 0 } ∧
    parse_timestamp (Json.num 1700000000) = Except.ok { secs := 1700000000, nsecs := 0 } ∧
    parse_timestamp (Json.str "1700000000") = parse_timestamp (Json.num 1700000000) ∧
    (∀ s, denotesInt? s = none →
      parse_timestamp (Json.str s) = Except.error "expected a timestamp in seconds") :=
  ⟨rfl, rfl, rfl, fun _ h => parse_timestamp_str_not_num h⟩

/-- C5 witness: the non-numeric clause at a concrete input. -/
theorem c5_timestamp_equiv_witness :
    denotesInt? "abc" = none ∧
    parse_timestamp (Json.str "abc") = Except.error "expected a timestamp in seconds" :=
  ⟨by decide, c5_timestamp_equiv.2.2.2 "abc" (by decide)⟩

/-- C10: `parse_timestamp` accepts negative whole-second values — a JSON
negative integer, or a numeric string with a leading minus sign — and
succeeds with the corresponding pre-1970 UTC instant (the instant one
second before the epoch for `-1`), for every negative value within
chrono's representable range. -/
theorem c10_negative_timestamp :
    parse_timestamp (Json.num (-1)) = Except.ok { secs := -1, nsecs := 0 } ∧
    parse_timestamp (Json.str "-1") = Except.ok { secs := -1, nsecs := 0 } ∧
    (∀ i : Int, chronoMinSecs ≤ i → i < 0 →
      parse_timestamp (Json.num i) = Except.ok { secs := i, nsecs := 0 }) := by
  refine ⟨rfl, rfl, fun i h0 h1 => parse_timestamp_num_ok h0 ?_⟩
  rw [chronoMaxSecs]
  omega

/-- C10 witness: the quantified clause at a concrete negative input. -/
theorem c10_negative_timestamp_witness :
    parse_timestamp (Json.num (-86400)) = Except.ok { secs := -86400, nsecs := 0 } :=
  c10_negative_timestamp.2.2 (-86400) (by decide) (by decide)

/-- C7: `unit_array` decoding of `["x"]` into a string succeeds with
`"x"`; decoding of `[]` and of any array of two or more elements fails,
as does decoding of any non-array JSON value; and when the sole element
fails to decode, the error is propagated with added context. -/
theorem c7_unit_array :
    unit_array decodeString (Json.arr [Json.str "x"]) = Except.ok "x" ∧
    unit_array decodeString (Json.arr []) = Except.error "expected an array of length 1" ∧
    unit_array decodeString (Json.arr [Json.str "x", Json.str "y"]) =
      Except.error "expected an array of length 1" ∧
    (∀ (T : Type) (d : Json → Except String T) (a b : Json) (rest : List Json),
      unit_array d (Json.arr (a :: b :: rest)) =
        Except.error "expected an array of length 1") ∧
    (∀ (T : Type) (d : Json → Except String T) (v : Json), v.isArr = false →
      unit_array d v = Except.error "expected an array") ∧
    (∀ (T : Type) (d : Json → Except String T) (x : Json) (e : String),
      d x = Except.error e →
      unit_array d (Json.arr [x]) = Except.error ("failed to deserialize: " ++ e)) := by
  refine ⟨rfl, rfl, rfl, fun T d a b rest => rfl, ?_, ?_⟩
  · intro T d v h
    cases v with
    | arr elems => simp [Json.isArr] at h
    | null => rfl
    | bool b => rfl
    | num i => rfl
    | str s => rfl
    | obj fields => rfl
  · intro T d x e h
    simp [unit_array, h]

/-- C7 witness: the quantified clauses at concrete inputs. -/
theorem c7_unit_array_witness :
    decodeString (Json.num 0) = Except.error "invalid type: expected a string" ∧
    unit_array decodeString (Json.arr [Json.num 0]) =
      Except.error ("failed to deserialize: " ++ "invalid type: expected a string") ∧
    Json.isArr (Json.str "z") = false ∧
    unit_array decodeString (Json.str "z") = Except.error "expected an array" ∧
    unit_array decodeString (Json.arr [Json.str "p", Json.str "q", Json.str "r"]) =
      Except.error "expected an array of length 1" :=
  ⟨rfl,
   c7_unit_array.2.2.2.2.2 String decodeString (Json.num 0)
     "invalid type: expected a string" rfl,
   rfl,
   c7_unit_array.2.2.2.2.1 String decodeString (Json.str "z") rfl,
   c7_unit_array.2.2.2.1 String decodeString (Json.str "p") (Json.str "q") [Json.str "r"]⟩

theorem categories_any_iff (c : Nat) :
    (CATEGORIES.any (fun p => p.1 == c) = true) ↔ c ∈ CATEGORIES.map Prod.fst := by
  simp [List.any_eq_true, List.mem_map, beq_iff_eq]

/-- C6: `Category.new c` returns `none` exactly when no entry for `c` is
present in the static `CATEGORIES` table, and a category carrying code
`c` otherwise; `Category.all` yields exactly the codes of the table in
table order (as a pure list, identical on every iteration). -/
theorem c6_category_new_all :
    (∀ c : Nat, Category.new c = none ↔ c ∉ CATEGORIES.map Prod.fst) ∧
    (∀ c : Nat, c ∈ CATEGORIES.map Prod.fst → Category.new c = some { code := c }) ∧
    (∀ c cat, Category.new c = some cat → cat.code = c) ∧
    Category.all.map Category.code = CATEGORIES.map Prod.fst := by
  refine ⟨?_, ?_, ?_, rfl⟩
  · intro c
    rw [Category.new]
    by_cases h : CATEGORIES.any (fun p => p.1 == c) = true
    · simp [h, (categories_any_iff c).mp h]
    · have hb : CATEGORIES.any (fun p => p.1 == c) = false := by
        cases hh : CATEGORIES.any (fun p => p.1 == c) <;> simp_all
      simp only [hb, Bool.false_eq_true, if_false, true_iff]
      intro hc
      exact h ((categories_any_iff c).mpr hc)
  · intro c hc
    rw [Category.new, if_pos ((categories_any_iff c).mpr hc)]
  · intro c cat h
    rw [Category.new] at h
    split_ifs at h
    injection h with h2
    subst h2
    rfl

/-- C6 witness: the quantified clauses at concrete codes. -/
theorem c6_category_new_all_witness :
    Category.new 201 = some { code := 201 } ∧
    Category.new 777 = none :=
  ⟨c6_category_new_all.2.1 201 (by decide),
   (c6_category_new_all.1 777).mpr (by decide)⟩

theorem category_name_eq (c : Nat) :
    Category.name { code := c } =
      ((lookup_id c).orElse (fun _ => lookup_id (c / 100))).getD "Unknown" := rfl

/-- C1 counterexample: the claim asserts that for a code with no entry of
its own the name recorded for its hundreds-place parent code is returned
(207 yielding the name of 200), but `Category::name` looks up
`code / 100` — which is 2 for 207, a key the table does not contain — so
207 resolves to `"Unknown"`, not to the name `"Video"` recorded for
200. -/
theorem c1_fallback_counterexample :
    lookup_id 207 = none ∧ (200, "Video") ∈ CATEGORIES ∧
    Category.name { code := 207 } = "Unknown" ∧ "Unknown" ≠ "Video" :=
  ⟨rfl, by decide, rfl, by decide⟩

/-- C1 as amended: `Category.name` returns the table name paired with `c`
when the table contains an entry for `c`; otherwise it returns the table
name paired with `c / 100` (the integer quotient — the bare hundreds
digit for a three-digit code, not the hundreds-place parent code) when
that key has an entry; and when neither lookup finds an entry it returns
the fixed string `"Unknown"`. -/
theorem c1_name_resolution (c : Nat) :
    (∀ n, (c, n) ∈ CATEGORIES → Category.name { code := c } = n) ∧
    (lookup_id c = none → ∀ n, (c / 100, n) ∈ CATEGORIES →
      Category.name { code := c } = n) ∧
    (lookup_id c = none → lookup_id (c / 100) = none →
      Category.name { code := c } = "Unknown") := by
  refine ⟨?_, ?_, ?_⟩
  · intro n h
    rw [category_name_eq, lookup_id_eq_of_mem h, opt_orElse_some]
    rfl
  · intro hc n h
    rw [category_name_eq, hc, opt_orElse_none, lookup_id_eq_of_mem h]
    rfl
  · intro hc hp
    rw [category_name_eq, hc, opt_orElse_none, hp]
    rfl

/-- C1 witness: an exact hit (201), a firing `/ 100` fallback
(20100 / 100 = 201) and a double miss (207). -/
theorem c1_name_resolution_witness :
    Category.name { code := 201 } = "Video: Movies" ∧
    Category.name { code := 20100 } = "Video: Movies" ∧
    Category.name { code := 207 } = "Unknown" :=
  ⟨(c1_name_resolution 201).1 "Video: Movies" (by decide),
   (c1_name_resolution 20100).2.1 rfl "Video: Movies" (by decide),
   (c1_name_resolution 207).2.2 rfl rfl⟩

theorem fromTag_none_iff (s : String) :
    UserStatus.fromTag s = none ↔
      s ∉ (["member", "trusted", "helper", "vip", "moderator", "supermod",
        "admin"] : List String) := by
  rw [UserStatus.fromTag]
  split_ifs with h1 h2 h3 h4 h5 h6 h7
  · subst h1; decide
  · subst h2; decide
  · subst h3; decide
  · subst h4; decide
  · subst h5; decide
  · subst h6; decide
  · subst h7; decide
  · simp [List.mem_cons, h1, h2, h3, h4, h5, h6, h7]

theorem deserialize_isOk_eq_isSome (s : String) :
    exceptIsOk (UserStatus.deserialize (Json.str s)) = (UserStatus.fromTag s).isSome := by
  cases h : UserStatus.fromTag s <;> simp [UserStatus.deserialize, h, exceptIsOk]

/-- C2 counterexample: the claim asserts that every casing of a trust
level's tag decodes, but serde's `rename_all = "lowercase"` matches the
lowercased variant names exactly, so `"Member"` and `"TRUSTED"` both
fail. -/
theorem c2_casing_counterexample :
    exceptIsOk (UserStatus.deserialize (Json.str "Member")) = false ∧
    exceptIsOk (UserStatus.deserialize (Json.str "TRUSTED")) = false :=
  ⟨rfl, rfl⟩

/-- C2 as amended: `UserStatus` deserialisation accepts exactly the
lowercase tag of each of the seven trust levels — `"member"`,
`"trusted"`, `"helper"`, `"vip"`, `"moderator"`, `"supermod"`,
`"admin"`, each decoding to its level — and fails for every other
string, including every other casing of those tags. -/
theorem c2_status_decode :
    (∀ s : String, exceptIsOk (UserStatus.deserialize (Json.str s)) = true ↔
      s ∈ (["member", "trusted", "helper", "vip", "moderator", "supermod",
        "admin"] : List String)) ∧
    UserStatus.deserialize (Json.str "member") = Except.ok UserStatus.Member ∧
    UserStatus.deserialize (Json.str "trusted") = Except.ok UserStatus.Trusted ∧
    UserStatus.deserialize (Json.str "helper") = Except.ok UserStatus.Helper ∧
    UserStatus.deserialize (Json.str "vip") = Except.ok UserStatus.Vip ∧
    UserStatus.deserialize (Json.str "moderator") = Except.ok UserStatus.Moderator ∧
    UserStatus.deserialize (Json.str "supermod") = Except.ok UserStatus.SuperMod ∧
    UserStatus.deserialize (Json.str "admin") = Except.ok UserStatus.Admin := by
  refine ⟨?_, rfl, rfl, rfl, rfl, rfl, rfl, rfl⟩
  intro s
  rw [deserialize_isOk_eq_isSome, Option.isSome_iff_ne_none, ne_eq, fromTag_none_iff]
  simp only [List.mem_cons, List.not_mem_nil, or_false]
  tauto

/-- C2 witness: the quantified clause at a concrete accepted tag and a
concrete rejected string. -/
theorem c2_status_decode_witness :
    exceptIsOk (UserStatus.deserialize (Json.str "trusted")) = true ∧
    exceptIsOk (UserStatus.deserialize (Json.str "pleb")) ≠ true :=
  ⟨(c2_status_decode.1 "trusted").mpr (by decide),
   fun h => by
    have := (c2_status_decode.1 "pleb").mp h
    simp at this⟩

/-- C4: for every torrent whose info hash is `"ABC123"` and whose name is
`"Foo"`, the magnet URI embeds `xt=urn:btih:ABC123` verbatim (exactly one
occurrence, colons unescaped), followed by the form-urlencoded `dn=Foo`
pair and then one `tr=` pair per entry of `TRACKERS`. -/
theorem c4_magnet (t : PartialTorrent) (h1 : t.info_hash = "ABC123")
    (h2 : t.name = "Foo") :
    t.magnet = "magnet:?xt=urn:btih:ABC123" ++ "&dn=" ++ "Foo"
      ++ (TRACKERS.map (fun tr => "&tr=" ++ formUrlencode tr)).foldl (· ++ ·) "" ∧
    countOcc ("xt=urn:btih:ABC123".data) t.magnet.data = 1 ∧
    countOcc ("tr=".data) t.magnet.data = TRACKERS.length ∧
    formUrlencode "Foo" = "Foo" := by
  have hm : t.magnet = "magnet:?xt=urn:btih:ABC123" ++ "&dn=" ++ "Foo"
      ++ (TRACKERS.map (fun tr => "&tr=" ++ formUrlencode tr)).foldl (· ++ ·) "" := by
    rw [PartialTorrent.magnet, h1, h2]
    rfl
  refine ⟨hm, ?_, ?_, rfl⟩
  · rw [hm]
    rfl
  · rw [hm]
    rfl

/-- A concrete `PartialTorrent` used to instantiate the magnet claim. -/
def sampleTorrent : PartialTorrent :=
  { id := 1, name := "Foo", info_hash := "ABC123", leechers := 0, seeders := 5,
    num_files := 1, size := 100, username := "u",
    added := { secs := 1700000000, nsecs := 0 },
    status := UserStatus.Trusted, category := { code := 207 }, imdb := none }

/-- C4 witness: the magnet claim at the concrete sample torrent. -/
theorem c4_magnet_witness :
    sampleTorrent.magnet = "magnet:?xt=urn:btih:ABC123" ++ "&dn=" ++ "Foo"
      ++ (TRACKERS.map (fun tr => "&tr=" ++ formUrlencode tr)).foldl (· ++ ·) "" ∧
    countOcc ("xt=urn:btih:ABC123".data) sampleTorrent.magnet.data = 1 ∧
    countOcc ("tr=".data) sampleTorrent.magnet.data = TRACKERS.length ∧
    formUrlencode "Foo" = "Foo" :=
  c4_magnet sampleTorrent rfl rfl
